import Mathlib

/-!
Verification of `uv-development-toggle`, a utility that toggles a project's
dependency-source configuration between a local editable checkout, a published
git reference, and the PyPI default.

The development shallowly embeds the pure decision logic of
`uv_development_toggle/__init__.py` (and the duplicate helpers in
`uv_development_toggle/git_utils.py` / `pypi.py`).  Effects are made explicit:

* network lookups (PyPI metadata, GitHub repository probes) become oracle
  functions carried by an environment record;
* the filesystem (path existence, current git branch) and the
  `PYTHON_DEVELOPMENT_TOGGLE` environment variable become fields of the same
  record;
* `sys.exit(1)` and the final persisted state become constructors of an
  explicit result type.
-/

namespace UvToggle

/-! ## String helpers (Python `in`, `str.replace` for single characters) -/

/-- Occurrence of `pat` as a contiguous sublist of `s` (Python `pat in s`). -/
def sub_occurs (pat s : List Char) : Bool :=
  (List.range (s.length + 1)).any (fun i => pat.isPrefixOf (s.drop i))

/-- `contains_str s pat` models the Python expression `pat in s`. -/
def contains_str (s pat : String) : Bool :=
  sub_occurs pat.data s.data

/-- Python `s.replace(a, b)` for single characters `a`, `b`.  (Implemented on
the character list so that it reduces inside the kernel.) -/
def replace_char (a b : Char) (s : String) : String :=
  ⟨s.data.map (fun c => if c = a then b else c)⟩

/-- Python `s.lower()` (ASCII, which covers every key the program compares). -/
def py_lower (s : String) : String :=
  ⟨s.data.map Char.toLower⟩

/-- Python `s.strip()`. -/
def py_strip (s : String) : String :=
  ⟨((s.data.dropWhile Char.isWhitespace).reverse.dropWhile
      Char.isWhitespace).reverse⟩

/-- Python `s.startswith(pat)`. -/
def starts_with (s pat : String) : Bool :=
  pat.data.isPrefixOf s.data

/-- Python `s.endswith(pat)`. -/
def ends_with (s pat : String) : Bool :=
  pat.data.reverse.isPrefixOf s.data.reverse

/-- Drop the first `n` characters. -/
def str_drop (s : String) (n : Nat) : String :=
  ⟨s.data.drop n⟩

/-- Longest prefix of characters satisfying `p`. -/
def str_take_while (p : Char → Bool) (s : String) : String :=
  ⟨s.data.takeWhile p⟩

/-! ## Ordered string dictionaries (Python `dict` semantics)

Python dictionaries preserve insertion order; assigning to an existing key
updates the value in place, assigning a fresh key appends.  `tomlkit` tables
behave the same way for our purposes. -/

/-- `d[k]` as an `Option` (first matching key; keys are unique in practice). -/
def dict_find {α : Type} (d : List (String × α)) (k : String) : Option α :=
  (d.find? (fun p => p.1 == k)).map (·.2)

/-- `k in d`. -/
def dict_mem {α : Type} (d : List (String × α)) (k : String) : Bool :=
  d.any (fun p => p.1 == k)

/-- `d[k] = v`: update in place when the key exists, append otherwise. -/
def dict_insert {α : Type} (d : List (String × α)) (k : String) (v : α) :
    List (String × α) :=
  if d.any (fun p => p.1 == k) then
    d.map (fun p => if p.1 == k then (p.1, v) else p)
  else
    d ++ [(k, v)]

/-- `del d[k]`. -/
def dict_erase {α : Type} (d : List (String × α)) (k : String) :
    List (String × α) :=
  d.filter (fun p => p.1 != k)

/-! ## PyPI metadata and `get_pypi_homepage`

Embeds `is_repository_url`, `normalize_project_url_key` and
`get_pypi_homepage` from `uv_development_toggle/__init__.py` (the module
`pypi.py` holds a byte-identical duplicate of the same three functions).
A metadata document is reduced to the two fields the function reads; a JSON
`null` home page and `null` project-URL mapping are already collapsed to
`""` / `{}` by the source (`... or ""`, `... or {}`). -/

structure PypiInfo where
  home_page : String
  project_urls : List (String × String)
deriving DecidableEq, Repr

/-- `is_repository_url` from the source. -/
def is_repository_url (url : String) : Bool :=
  if !(contains_str url "github.com") then false
  else !(contains_str url "/blob/") && !(contains_str url "/tree/")

/-- `normalize_project_url_key` from the source: `key.strip().lower()`. -/
def normalize_project_url_key (key : String) : String :=
  py_lower (py_strip key)

/-- The dict comprehension `{normalize_project_url_key(k): url for k, url in
project_urls.items()}`. -/
def normalize_urls (urls : List (String × String)) : List (String × String) :=
  urls.foldl (fun d p => dict_insert d (normalize_project_url_key p.1) p.2) []

/-- `priority_keys` from the source. -/
def priority_keys : List String := ["repository", "source", "source code"]

/-- `skip_keys` from the source. -/
def skip_keys : List String :=
  ["changelog", "documentation", "docs", "issues", "bug tracker", "bugtracker"]

/-- `normalized_urls.get(key, "")`. -/
def dict_get_str (d : List (String × String)) (k : String) : String :=
  (dict_find d k).getD ""

/-- The `for key in priority_keys` loop of `get_pypi_homepage`. -/
def find_priority_url (d : List (String × String)) : List String → Option String
  | [] => none
  | k :: ks =>
    let url := dict_get_str d k
    if url != "" && is_repository_url url then some url
    else find_priority_url d ks

/-- The `for key, url in normalized_urls.items()` loop of `get_pypi_homepage`:
first non-skipped entry whose value is a repository URL. -/
def find_nonskip_url (d : List (String × String)) : Option String :=
  (d.find? (fun p =>
    !(skip_keys.contains p.1) && p.2 != "" && is_repository_url p.2)).map (·.2)

/-- The `for url in normalized_urls.values()` loop of `get_pypi_homepage`:
first value containing the hosting-platform domain. -/
def find_github_url (d : List (String × String)) : Option String :=
  (d.find? (fun p => p.2 != "" && contains_str p.2 "github.com")).map (·.2)

/-- `get_pypi_homepage` from the source, with the network fetch factored out:
the caller supplies the already-fetched metadata document. -/
def get_pypi_homepage (info : PypiInfo) : String :=
  let homepage := info.home_page
  if homepage != "" && is_repository_url homepage then homepage
  else
    let normalized_urls := normalize_urls info.project_urls
    match find_priority_url normalized_urls priority_keys with
    | some url => url
    | none =>
      match find_nonskip_url normalized_urls with
      | some url => url
      | none =>
        match find_github_url normalized_urls with
        | some url => url
        | none => homepage

/-! ### The specification's extraction rules (for the refinement claims)

`spec_homepage_with` follows the wording of the spec / claim C2: five rules
tried strictly in order, the first qualifying match winning.  It is
parametrised by the list of non-source labels so that the claim's literal
label list and the amended one can both be stated. -/

/-- The claim's list of known non-source labels (it omits `"bugtracker"`). -/
def claim_skip_keys : List String :=
  ["changelog", "documentation", "docs", "issues", "bug tracker"]

/-- Rule (a): the home page field, if it is a repository URL. -/
def rule_home (info : PypiInfo) : Option String :=
  if is_repository_url info.home_page then some info.home_page else none

/-- Rule (b): the case-insensitively matched keys `repository`, `source`,
`source code`, in that priority order, if the value is a repository URL. -/
def rule_priority (d : List (String × String)) : Option String :=
  (priority_keys.map (fun k => dict_get_str d k)).find?
    (fun u => u != "" && is_repository_url u)

/-- Rule (c): any remaining URL whose key is not a non-source label and which
is a repository URL. -/
def rule_nonskip (skips : List String) (d : List (String × String)) :
    Option String :=
  (d.find? (fun p =>
    !(skips.contains p.1) && p.2 != "" && is_repository_url p.2)).map (·.2)

/-- Rule (d): any URL containing the hosting-platform domain. -/
def rule_domain (d : List (String × String)) : Option String :=
  (d.find? (fun p => p.2 != "" && contains_str p.2 "github.com")).map (·.2)

/-- The specification's extraction order: first qualifying rule wins, with the
raw home page as the final fallback (rule (e)). -/
def spec_homepage_with (skips : List String) (info : PypiInfo) : String :=
  (([rule_home info,
     rule_priority (normalize_urls info.project_urls),
     rule_nonskip skips (normalize_urls info.project_urls),
     rule_domain (normalize_urls info.project_urls)]).findSome? id).getD
    info.home_page

/-! ## GitHub probing: `check_github_repo_is_python_package`

The repository contains two near-duplicate implementations: one in
`__init__.py` (the one `toggle_module_source` calls) and one in
`git_utils.py`.  A probe of the contents API either succeeds, raises
`HTTPError` with some status code, or raises `URLError`; the caller supplies
the outcome per probed API URL as an oracle. -/

inductive ProbeResult where
  | found
  | httpErr (code : Nat)
  | urlErr
deriving DecidableEq, Repr

/-- Whether a probe outcome is an `HTTPError` (of any status code). -/
def ProbeResult.isHttpErr : ProbeResult → Bool
  | .httpErr _ => true
  | _ => false

/-- The three manifest filenames (`indicators` in the source). -/
def indicators : List String := ["pyproject.toml", "setup.py", "setup.cfg"]

/-- The contents-API URL probed for one filename. -/
def api_contents_url (username repo fname : String) : String :=
  "https://api.github.com/repos/" ++ username ++ "/" ++ repo ++ "/contents/"
    ++ fname

/-- `re.match(r"https?://github\.com/([^/]+)/([^/.]+)(\.git)?", url)`, reduced
to the two captured groups the source keeps.  `[^/]+` is a nonempty greedy run
of non-slash characters followed by a mandatory `/`; `[^/.]+` is a nonempty
greedy run stopping at the first `/` or `.`; the optional `(\.git)?` group
constrains nothing. -/
def parse_github_url (url : String) : Option (String × String) :=
  let rest? : Option String :=
    if starts_with url "https://github.com/" then some (str_drop url 19)
    else if starts_with url "http://github.com/" then some (str_drop url 18)
    else none
  match rest? with
  | none => none
  | some rest =>
    let username := str_take_while (fun c => c != '/') rest
    if username.data.isEmpty then none
    else
      let rest2 := str_drop rest username.data.length
      if !(starts_with rest2 "/") then none
      else
        let repo :=
          str_take_while (fun c => c != '/' && c != '.') (str_drop rest2 1)
        if repo.data.isEmpty then none else some (username, repo)

/-- The probing loop of `__init__.check_github_repo_is_python_package`: a
successful probe returns true, an `HTTPError` — whatever its status code —
falls through to the next filename (only its log message distinguishes 404
from other codes), a `URLError` returns false immediately. -/
def probe_indicators (probe : String → ProbeResult) (username repo : String) :
    List String → Bool
  | [] => false
  | fname :: rest =>
    match probe (api_contents_url username repo fname) with
    | .found => true
    | .httpErr _ => probe_indicators probe username repo rest
    | .urlErr => false

/-- `check_github_repo_is_python_package` from `__init__.py`. -/
def check_github_repo_is_python_package (probe : String → ProbeResult)
    (github_url : String) : Bool :=
  match parse_github_url github_url with
  | none => false
  | some (username, repo) => probe_indicators probe username repo indicators

namespace git_utils

/-- The probing loop of `git_utils.check_github_repo_is_python_package`: a 404
`HTTPError` continues to the next filename, any other `HTTPError` and any
`URLError` return false immediately. -/
def probe_indicators (probe : String → ProbeResult) (username repo : String) :
    List String → Bool
  | [] => false
  | fname :: rest =>
    match probe (api_contents_url username repo fname) with
    | .found => true
    | .httpErr code =>
      if code == 404 then probe_indicators probe username repo rest else false
    | .urlErr => false

/-- `check_github_repo_is_python_package` from `git_utils.py`. -/
def check_github_repo_is_python_package (probe : String → ProbeResult)
    (github_url : String) : Bool :=
  match parse_github_url github_url with
  | none => false
  | some (username, repo) => probe_indicators probe username repo indicators

end git_utils

/-! ## The toggle engine: `toggle_module_source`

All effects become fields of `ToggleEnv`; the outcome (process exit versus
persisted sources table, final status message, and the package handed to
`uv sync --upgrade-package`) becomes a `ToggleResult`. -/

/-- A `[tool.uv.sources]` entry.  `localSrc` is `{path = ..., editable = ...}`;
`gitSrc` is `{git = ..., rev = ...}` (the source can put Python `None` in the
`git` slot, hence the `Option`). -/
inductive SourceEntry where
  | localSrc (path : String) (editable : Bool)
  | gitSrc (git : Option String) (rev : Option String)
deriving DecidableEq, Repr

/-- `"git" in current_source` (with `{}` for a missing entry). -/
def has_git_key : Option SourceEntry → Bool
  | some (.gitSrc _ _) => true
  | _ => false

/-- Whether an entry is a Local (`path`/`editable`) entry. -/
def is_local_entry : Option SourceEntry → Bool
  | some (.localSrc _ _) => true
  | _ => false

/-- The status category of the final `display_status` call.  (The source's
`source_other` branch would require a written entry with neither a `path` nor
a `git` key; the program only ever writes the two shapes above, so that
branch is unreachable and has no constructor here.) -/
inductive StatusKind where
  | sourcePath
  | sourceGit
  | pypiRemoved
  | pypiAlready
deriving DecidableEq, Repr

/-- Which error caused a `sys.exit(1)`. -/
inductive ExitKind where
  | noPyproject
  | noUrlNoLocal
  | cloneNoUrl
  | cloneInvalidRepo
deriving DecidableEq, Repr

/-- Outcome of one `toggle_module_source` invocation.  `exit1` is
`sys.exit(1)` after printing `message`; the configuration file is left
untouched (every write in the source happens strictly after the last possible
exit).  `done` carries the persisted sources table, the status category
reported, and the package passed to the dependency-lock refresh. -/
inductive ToggleResult where
  | exit1 (kind : ExitKind) (message : String)
  | done (sources : List (String × SourceEntry)) (status : StatusKind)
      (uvPackage : String)
deriving DecidableEq, Repr

/-- `display_status("error", module_name, details)` message text. -/
def error_message (module_name details : String) : String :=
  "Error: " ++ details ++ " for " ++ module_name

/-- Python `f"{username}"` for an optional string. -/
def py_str_opt : Option String → String
  | some s => s
  | none => "None"

/-- The environment of one invocation: configuration file state, filesystem,
`PYTHON_DEVELOPMENT_TOGGLE`, and the network/subprocess oracles. -/
structure ToggleEnv where
  pyprojectExists : Bool
  sources : List (String × SourceEntry)
  pathExists : String → Bool
  branchOf : String → String
  devToggleVar : Option String
  ghUsername : Option String
  repoExists : String → String → Bool
  probe : String → ProbeResult
  pypi : String → PypiInfo

/-- The same environment with a replaced sources table (used to chain
invocations: the second run reads what the first one persisted). -/
def ToggleEnv.withSources (env : ToggleEnv)
    (s : List (String × SourceEntry)) : ToggleEnv :=
  { env with sources := s }

/-- `os.environ.get("PYTHON_DEVELOPMENT_TOGGLE", "pypi")`. -/
def toggle_dev_dir (envVar : Option String) : String :=
  envVar.getD "pypi"

/-- Lines 285–297 of `__init__.py`: the three candidate paths, first existing
wins, as-is path when none exists. -/
def resolve_local_path (ex : String → Bool) (dir module_name : String) :
    String :=
  let local_path_default := dir ++ "/" ++ module_name
  let local_path_dash := dir ++ "/" ++ replace_char '_' '-' module_name
  let local_path_underscore := dir ++ "/" ++ replace_char '-' '_' module_name
  if ex local_path_default then local_path_default
  else if ex local_path_dash then local_path_dash
  else if ex local_path_underscore then local_path_underscore
  else local_path_default

/-- The claim's description of the candidate order (spec side of C8). -/
def local_candidates (dir module_name : String) : List String :=
  [dir ++ "/" ++ module_name,
   dir ++ "/" ++ replace_char '_' '-' module_name,
   dir ++ "/" ++ replace_char '-' '_' module_name]

/-- The local checkout path one invocation resolves. -/
def the_local_path (env : ToggleEnv) (module_name : String) : String :=
  resolve_local_path env.pathExists (toggle_dev_dir env.devToggleVar)
    module_name

/-- Lines 299–304 of `__init__.py`: current branch of the local checkout when
it exists, with `master`/`main` treated as no explicit branch. -/
def toggle_current_branch (env : ToggleEnv) (module_name : String) :
    Option String :=
  let local_path := the_local_path env module_name
  if env.pathExists local_path then
    let b := env.branchOf local_path
    if b == "master" || b == "main" then none else some b
  else none

/-- The PyPI-homepage fallback used in both arms of the URL resolution: take
the homepage, require the hosting domain, append `.git` when missing, and
require the package-shape check. -/
def pypi_homepage_fallback (env : ToggleEnv) (module_name : String) :
    Option String × Bool :=
  let pypi_homepage := get_pypi_homepage (env.pypi module_name)
  if contains_str pypi_homepage "github.com" then
    let pypi_url :=
      if ends_with pypi_homepage ".git" then pypi_homepage
      else pypi_homepage ++ ".git"
    if check_github_repo_is_python_package env.probe pypi_url then
      (some pypi_url, true)
    else (none, false)
  else (none, false)

/-- Lines 306–336 of `__init__.py`: resolve `(github_url, repo_valid)`.  The
`username and check_github_repo_exists(...)` guard uses Python truthiness, so
an empty username string falls through to the PyPI fallback. -/
def resolve_github (env : ToggleEnv) (module_name : String) :
    Option String × Bool :=
  match env.ghUsername with
  | some username =>
    if username != "" && env.repoExists username module_name then
      let candidate_url :=
        "https://github.com/" ++ username ++ "/" ++ module_name ++ ".git"
      if check_github_repo_is_python_package env.probe candidate_url then
        (some candidate_url, true)
      else
        pypi_homepage_fallback env module_name
    else
      pypi_homepage_fallback env module_name
  | none => pypi_homepage_fallback env module_name

/-- `toggle_module_source` from `__init__.py`. -/
def toggle_module_source (env : ToggleEnv) (module_name : String)
    (force_local force_published force_pypi : Bool) : ToggleResult :=
  if !env.pyprojectExists then
    .exit1 .noPyproject "No pyproject.toml found, are you in the right folder?"
  else
  let sources := env.sources
  let current_source := dict_find sources module_name
  if force_pypi then
    if dict_mem sources module_name then
      .done (dict_erase sources module_name) .pypiRemoved module_name
    else
      .done sources .pypiAlready module_name
  else
  let local_path := the_local_path env module_name
  let current_branch := toggle_current_branch env module_name
  let gr := resolve_github env module_name
  let github_url := gr.1
  let repo_valid := gr.2
  -- `if not github_url:` prints a warning; the exit happens only when the
  -- local path is missing as well.
  if github_url.isNone && !env.pathExists local_path then
    .exit1 .noUrlNoLocal (error_message module_name
      ("Local path " ++ local_path
        ++ " does not exist and GitHub URL detection failed"))
  else
  let published_source := SourceEntry.gitSrc github_url current_branch
  let local_source := SourceEntry.localSrc local_path true
  if force_local || (!force_published && has_git_key current_source) then
    if !env.pathExists local_path then
      if github_url.isNone then
        .exit1 .cloneNoUrl (error_message module_name
          ("Local path " ++ local_path
            ++ " does not exist and cannot clone without a GitHub URL."))
      else if !repo_valid then
        .exit1 .cloneInvalidRepo (error_message module_name
          ("Neither " ++ py_str_opt env.ghUsername ++ "/" ++ module_name
            ++ " nor the PyPI GitHub reference appear to be valid Python"
            ++ " packages (missing pyproject.toml/setup.py/setup.cfg)."
            ++ " Cannot clone."))
      else
        -- clone_repo(github_url, local_path), then fall through to the write
        .done (dict_insert sources module_name local_source) .sourcePath
          module_name
    else
      .done (dict_insert sources module_name local_source) .sourcePath
        module_name
  else
    .done (dict_insert sources module_name published_source) .sourceGit
      module_name

/-- The entry one non-PyPI invocation decides to write (the claims compare the
persisted table against this). -/
def decided_entry (env : ToggleEnv) (module_name : String)
    (force_local force_published : Bool) : SourceEntry :=
  if force_local
      || (!force_published && has_git_key (dict_find env.sources module_name))
  then
    SourceEntry.localSrc (the_local_path env module_name) true
  else
    SourceEntry.gitSrc (resolve_github env module_name).1
      (toggle_current_branch env module_name)

/-- Whether a result is the "resolved URL failed shape validation before
cloning" exit (claim C4 states this branch is unreachable). -/
def is_unvalidated_exit : ToggleResult → Bool
  | .exit1 .cloneInvalidRepo _ => true
  | _ => false

/-- Absence of the file-view path segments (`/blob/`, `/tree/`). -/
def no_file_view (url : String) : Bool :=
  !(contains_str url "/blob/") && !(contains_str url "/tree/")

/-- Two project-URL tables that differ only in key letter case or surrounding
whitespace: pointwise, keys normalise identically and values coincide. -/
def key_equiv (u u' : List (String × String)) : Prop :=
  List.Forall₂ (fun p q =>
    normalize_project_url_key p.1 = normalize_project_url_key q.1
      ∧ p.2 = q.2) u u'

/-! ## Concrete inputs used by counterexamples and witnesses -/

/-- A metadata document on which the claimed skip-key list (without
`"bugtracker"`) and the source's one disagree. -/
def info_ce_skip : PypiInfo :=
  { home_page := ""
    project_urls :=
      [("aaa", "https://github.com/u/r/blob/m/f"),
       ("bugtracker", "https://github.com/u/r")] }

/-- A metadata document whose only URL is a file-view home page. -/
def info_ce_blob : PypiInfo :=
  { home_page := "https://github.com/u/r/blob/main/x", project_urls := [] }

/-- A metadata document on which every repository-URL rule fires at once. -/
def info_repo_all : PypiInfo :=
  { home_page := "https://github.com/u/r"
    project_urls := [("repository", "https://github.com/u/r")] }

/-- A probe oracle: non-404 HTTP error on `pyproject.toml`, success on
`setup.py`. -/
def probe_ce : String → ProbeResult := fun s =>
  if s == api_contents_url "acme" "demo" "pyproject.toml" then .httpErr 500
  else if s == api_contents_url "acme" "demo" "setup.py" then .found
  else .urlErr

/-- An environment whose `demo` entry is a Published one, with an existing
local checkout on the default branch and no resolvable repository URL. -/
def env_git_demo : ToggleEnv :=
  { pyprojectExists := true
    sources := [("demo", .gitSrc (some "https://example.com/demo.git") none)]
    pathExists := fun _ => true
    branchOf := fun _ => "main"
    devToggleVar := none
    ghUsername := none
    repoExists := fun _ _ => false
    probe := fun _ => .urlErr
    pypi := fun _ => { home_page := "", project_urls := [] } }

/-- An environment with no resolvable repository URL and no local checkout. -/
def env_no_url : ToggleEnv :=
  { pyprojectExists := true
    sources := []
    pathExists := fun _ => false
    branchOf := fun _ => "main"
    devToggleVar := none
    ghUsername := none
    repoExists := fun _ _ => false
    probe := fun _ => .urlErr
    pypi := fun _ => { home_page := "", project_urls := [] } }

/-- An environment whose `demo` entry is Local, with the checkout on branch
`feature`. -/
def env_feature : ToggleEnv :=
  { pyprojectExists := true
    sources := [("demo", .localSrc "/tmp/demo" true)]
    pathExists := fun _ => true
    branchOf := fun _ => "feature"
    devToggleVar := none
    ghUsername := none
    repoExists := fun _ _ => false
    probe := fun _ => .urlErr
    pypi := fun _ => { home_page := "", project_urls := [] } }

/-! # Theorems -/

/-! ## String and dictionary helper lemmas -/

theorem isPrefixOf_self (l : List Char) : l.isPrefixOf l = true := by
  induction l with
  | nil => rfl
  | cons a l ih => simp [List.isPrefixOf, ih]

theorem contains_str_append (a b : String) : contains_str (a ++ b) b = true := by
  unfold contains_str sub_occurs
  have hd : (a ++ b).data = a.data ++ b.data := rfl
  rw [hd]
  apply List.any_eq_true.mpr
  refine ⟨a.data.length, List.mem_range.mpr ?_, ?_⟩
  · simp only [List.length_append]
    omega
  · rw [List.drop_left]
    exact isPrefixOf_self _

theorem dict_find_insert {α : Type} (d : List (String × α)) (k : String)
    (v : α) : dict_find (dict_insert d k v) k = some v := by
  unfold dict_insert
  by_cases h : d.any (fun p => p.1 == k) = true
  · rw [if_pos h]
    induction d with
    | nil => simp at h
    | cons p d ih =>
      cases hp : (p.1 == k) with
      | true =>
        have hpe : p.1 = k := by simpa using hp
        simp [dict_find, List.find?_cons, hp, hpe]
      | false =>
        have h2 : d.any (fun p => p.1 == k) = true := by
          simpa [List.any_cons, hp] using h
        have step := ih h2
        simp only [List.map_cons, if_neg (by simp [hp] : ¬(p.1 == k) = true)]
        simpa [dict_find, List.find?_cons, hp] using step
  · rw [if_neg h]
    induction d with
    | nil => simp [dict_find, List.find?_cons]
    | cons p d ih =>
      have h1 : (p.1 == k) = false := by
        cases hpk : p.1 == k
        · rfl
        · exact absurd (by simp [List.any_cons, hpk]) h
      have h2 : ¬ d.any (fun p => p.1 == k) = true := by
        intro hd
        exact h (by simp [List.any_cons, hd])
      have step := ih h2
      simp only [List.cons_append]
      simpa [dict_find, List.find?_cons, h1] using step

theorem dict_find_erase {α : Type} (d : List (String × α)) (k : String) :
    dict_find (dict_erase d k) k = none := by
  induction d with
  | nil => rfl
  | cons p d ih =>
    cases hp : (p.1 == k) with
    | true =>
      have hb : (p.1 != k) = false := by simp [bne, hp]
      simpa [dict_erase, List.filter_cons, hb] using ih
    | false =>
      have hb : (p.1 != k) = true := by simp [bne, hp]
      simp only [dict_erase, List.filter_cons, hb, if_true]
      simp [dict_find, List.find?_cons, hp, dict_erase]

/-! ## `get_pypi_homepage` lemmas -/

theorem is_repository_url_no_file_view (u : String)
    (h : is_repository_url u = true) :
    contains_str u "/blob/" = false ∧ contains_str u "/tree/" = false := by
  unfold is_repository_url at h
  cases hg : contains_str u "github.com" with
  | false => simp [hg] at h
  | true =>
    rw [hg] at h
    simp only [Bool.not_true, Bool.false_eq_true, if_false,
      Bool.and_eq_true, Bool.not_eq_true'] at h
    exact h

theorem find_priority_url_some (d : List (String × String))
    (ks : List String) (u : String) (h : find_priority_url d ks = some u) :
    is_repository_url u = true := by
  induction ks with
  | nil => simp [find_priority_url] at h
  | cons k ks ih =>
    simp only [find_priority_url] at h
    by_cases hc :
        (dict_get_str d k != "" && is_repository_url (dict_get_str d k))
          = true
    · rw [if_pos hc] at h
      cases h
      rw [Bool.and_eq_true] at hc
      exact hc.2
    · rw [if_neg hc] at h
      exact ih h

theorem find_nonskip_url_some (d : List (String × String)) (u : String)
    (h : find_nonskip_url d = some u) : is_repository_url u = true := by
  unfold find_nonskip_url at h
  cases hf : d.find? (fun p =>
      !(skip_keys.contains p.1) && p.2 != "" && is_repository_url p.2) with
  | none =>
    rw [hf] at h
    exact absurd h (by simp)
  | some p =>
    rw [hf] at h
    have hp := List.find?_some hf
    rw [Bool.and_eq_true, Bool.and_eq_true] at hp
    have hu : p.2 = u := by simpa using h
    rw [← hu]
    exact hp.2

theorem find_priority_eq (d : List (String × String)) (ks : List String) :
    find_priority_url d ks =
      (ks.map (fun k => dict_get_str d k)).find?
        (fun u => u != "" && is_repository_url u) := by
  induction ks with
  | nil => rfl
  | cons k ks ih =>
    simp only [find_priority_url, List.map_cons, List.find?_cons]
    cases hc :
        (dict_get_str d k != "" && is_repository_url (dict_get_str d k)) with
    | true => simp [hc]
    | false => simp [hc, ih]

theorem normalize_urls_congr (u u' : List (String × String))
    (h : key_equiv u u') : normalize_urls u = normalize_urls u' := by
  unfold normalize_urls
  suffices hgen : ∀ acc : List (String × String),
      u.foldl
          (fun d p => dict_insert d (normalize_project_url_key p.1) p.2)
          acc
        = u'.foldl
            (fun d p => dict_insert d (normalize_project_url_key p.1) p.2)
            acc from hgen []
  induction h with
  | nil => intro acc; rfl
  | cons hpq _ ih =>
    intro acc
    simp only [List.foldl_cons, hpq.1, hpq.2]
    exact ih _

/-- C2 (counterexample): the claim's rule list omits the skip key
`"bugtracker"`, which the source also skips.  On a document whose only
repository URL sits under the `bugtracker` key, the claim's rules return that
URL at rule (c) while the source skips it and its domain fallback returns the
earlier file-view URL instead. -/
theorem C2_counterexample :
    get_pypi_homepage info_ce_skip = "https://github.com/u/r/blob/m/f"
      ∧ spec_homepage_with claim_skip_keys info_ce_skip
          = "https://github.com/u/r" :=
  ⟨rfl, rfl⟩

/-- C2 (amended): `get_pypi_homepage` implements exactly the claimed strict
rule order (a) home page if repository URL, (b) priority keys, (c) non-skipped
repository URLs, (d) hosting-domain fallback, (e) raw home page — with the
non-source label list additionally containing `"bugtracker"`. -/
theorem C2_extraction_order (info : PypiInfo) :
    get_pypi_homepage info = spec_homepage_with skip_keys info := by
  unfold get_pypi_homepage spec_homepage_with
  dsimp only
  have hb : rule_priority (normalize_urls info.project_urls)
      = find_priority_url (normalize_urls info.project_urls) priority_keys :=
    (find_priority_eq _ _).symm
  have hc : rule_nonskip skip_keys (normalize_urls info.project_urls)
      = find_nonskip_url (normalize_urls info.project_urls) := rfl
  have hdm : rule_domain (normalize_urls info.project_urls)
      = find_github_url (normalize_urls info.project_urls) := rfl
  rw [hb, hc, hdm]
  cases hr : is_repository_url info.home_page with
  | true =>
    have hne : info.home_page ≠ "" := by
      intro he
      rw [he] at hr
      exact absurd hr (by decide)
    simp [rule_home, hr, List.findSome?_cons, bne_iff_ne, hne]
  | false =>
    simp only [Bool.and_false, Bool.false_eq_true, if_false, rule_home, hr,
      List.findSome?_cons, id]
    cases hp1 : find_priority_url (normalize_urls info.project_urls)
        priority_keys with
    | some u => simp
    | none =>
      simp only [Option.none_orElse]
      cases hn : find_nonskip_url (normalize_urls info.project_urls) with
      | some u => simp
      | none =>
        simp only [Option.none_orElse]
        cases hg : find_github_url (normalize_urls info.project_urls) with
        | some u => simp
        | none => simp

/-- C3 (counterexample): the raw home-page fallback of `get_pypi_homepage`
returns a file-view URL when no rule matched, so the returned URL can contain
`/blob/`. -/
theorem C3_counterexample :
    contains_str (get_pypi_homepage info_ce_blob) "/blob/" = true := by
  decide

/-- C3 (amended): any URL selected by the repository-URL rules of
`get_pypi_homepage` — the home-page check, the priority-key loop and the
non-skipped scan — contains neither `/blob/` nor `/tree/`; only the
hosting-domain fallback and the raw home-page fallback can return a file-view
URL. -/
theorem C3_repo_rules_no_file_view (info : PypiInfo) (u : String) :
    (is_repository_url info.home_page = true
      → no_file_view info.home_page = true)
    ∧ (find_priority_url (normalize_urls info.project_urls) priority_keys
          = some u → no_file_view u = true)
    ∧ (find_nonskip_url (normalize_urls info.project_urls) = some u
          → no_file_view u = true) := by
  refine ⟨fun h => ?_, fun h => ?_, fun h => ?_⟩
  · obtain ⟨h1, h2⟩ := is_repository_url_no_file_view _ h
    simp [no_file_view, h1, h2]
  · obtain ⟨h1, h2⟩ :=
      is_repository_url_no_file_view _ (find_priority_url_some _ _ _ h)
    simp [no_file_view, h1, h2]
  · obtain ⟨h1, h2⟩ :=
      is_repository_url_no_file_view _ (find_nonskip_url_some _ _ h)
    simp [no_file_view, h1, h2]

/-- Witness for C3 (amended) at a document where all three repository-URL
rules fire at once. -/
theorem C3_witness :
    (is_repository_url info_repo_all.home_page = true
      ∧ find_priority_url (normalize_urls info_repo_all.project_urls)
          priority_keys = some "https://github.com/u/r"
      ∧ find_nonskip_url (normalize_urls info_repo_all.project_urls)
          = some "https://github.com/u/r")
    ∧ no_file_view info_repo_all.home_page = true
    ∧ no_file_view "https://github.com/u/r" = true := by
  refine ⟨⟨by decide, by decide, by decide⟩, ?_, ?_⟩
  · exact (C3_repo_rules_no_file_view info_repo_all "x").1 (by decide)
  · exact (C3_repo_rules_no_file_view info_repo_all
      "https://github.com/u/r").2.2 (by decide)

/-- C10: `get_pypi_homepage` is invariant under changes of letter case or
surrounding whitespace in project-URL keys — two documents with the same home
page whose key lists normalise pointwise to the same keys (with the same
values) yield the same result. -/
theorem C10_key_case_insensitive (hp : String)
    (u u' : List (String × String)) (h : key_equiv u u') :
    get_pypi_homepage ⟨hp, u⟩ = get_pypi_homepage ⟨hp, u'⟩ := by
  have hn := normalize_urls_congr u u' h
  simp only [get_pypi_homepage]
  rw [hn]

/-- Witness for C10 at the spec's own example: the key `"Source Code"` is
treated identically to `" source code "`. -/
theorem C10_witness :
    key_equiv [("Source Code", "https://github.com/u/r")]
        [(" source code ", "https://github.com/u/r")]
      ∧ get_pypi_homepage
          ⟨"", [("Source Code", "https://github.com/u/r")]⟩
        = get_pypi_homepage
            ⟨"", [(" source code ", "https://github.com/u/r")]⟩ := by
  have hk : key_equiv [("Source Code", "https://github.com/u/r")]
      [(" source code ", "https://github.com/u/r")] :=
    List.Forall₂.cons ⟨by decide, rfl⟩ List.Forall₂.nil
  exact ⟨hk, C10_key_case_insensitive _ _ _ hk⟩

/-! ## `check_github_repo_is_python_package` lemmas -/

theorem probe_loop_init_eq (probe : String → ProbeResult)
    (username repo : String) (fs : List String) :
    probe_indicators probe username repo fs
      = (((fs.map (fun f => probe (api_contents_url username repo f))).find?
          (fun x => ! x.isHttpErr)) == some ProbeResult.found) := by
  induction fs with
  | nil => rfl
  | cons f fs ih =>
    cases hp : probe (api_contents_url username repo f) with
    | found =>
      simp only [probe_indicators, List.map_cons, List.find?_cons, hp]
      rfl
    | httpErr c =>
      simp only [probe_indicators, List.map_cons, List.find?_cons, hp]
      exact ih
    | urlErr =>
      simp only [probe_indicators, List.map_cons, List.find?_cons, hp]
      rfl

theorem probe_loop_git_utils_eq (probe : String → ProbeResult)
    (username repo : String) (fs : List String) :
    git_utils.probe_indicators probe username repo fs
      = (((fs.map (fun f => probe (api_contents_url username repo f))).find?
          (fun x => x != ProbeResult.httpErr 404)) == some ProbeResult.found)
    := by
  induction fs with
  | nil => rfl
  | cons f fs ih =>
    cases hp : probe (api_contents_url username repo f) with
    | found =>
      simp only [git_utils.probe_indicators, List.map_cons, List.find?_cons,
        hp]
      rfl
    | httpErr c =>
      by_cases hc : c = 404
      · subst hc
        simp only [git_utils.probe_indicators, List.map_cons,
          List.find?_cons, hp]
        exact ih
      · have hb2 : (c == 404) = false := by
          simp [hc]
        have hb3 : (ProbeResult.httpErr c != ProbeResult.httpErr 404)
            = true := by
          simp [bne_iff_ne, hc]
        simp only [git_utils.probe_indicators, List.map_cons,
          List.find?_cons, hp, hb2, hb3]
        simp
    | urlErr =>
      simp only [git_utils.probe_indicators, List.map_cons, List.find?_cons,
        hp]
      rfl

/-- C6 (counterexample): in the `__init__.py` implementation — the one
`toggle_module_source` calls — a non-404 HTTP error on the first probe does
NOT return false immediately; the loop continues and the second probe's
success makes the function return true. -/
theorem C6_counterexample :
    probe_ce (api_contents_url "acme" "demo" "pyproject.toml")
        = ProbeResult.httpErr 500
      ∧ check_github_repo_is_python_package probe_ce
          "https://github.com/acme/demo.git" = true :=
  ⟨rfl, rfl⟩

/-- C6 (amended): both implementations probe `pyproject.toml`, `setup.py`,
`setup.cfg` in order and return true exactly when the first probe outcome
that is not a skipped one succeeds (and false when the URL does not parse).
They differ in what is skipped: `git_utils.py` skips only 404 HTTP errors
(any other transport error is an immediate false), while `__init__.py` skips
every HTTP error, whatever its status code, and returns an immediate false
only on a URL transport error. -/
theorem C6_probe_order (probe : String → ProbeResult) (url : String) :
    git_utils.check_github_repo_is_python_package probe url
      = ((parse_github_url url).elim false (fun p =>
          (((indicators.map
              (fun f => probe (api_contents_url p.1 p.2 f))).find?
            (fun x => x != ProbeResult.httpErr 404))
            == some ProbeResult.found)))
    ∧ check_github_repo_is_python_package probe url
      = ((parse_github_url url).elim false (fun p =>
          (((indicators.map
              (fun f => probe (api_contents_url p.1 p.2 f))).find?
            (fun x => ! x.isHttpErr)) == some ProbeResult.found))) := by
  constructor
  · unfold git_utils.check_github_repo_is_python_package
    cases hp : parse_github_url url with
    | none => rfl
    | some p =>
      cases p with
      | mk u r => simp [Option.elim, probe_loop_git_utils_eq]
  · unfold check_github_repo_is_python_package
    cases hp : parse_github_url url with
    | none => rfl
    | some p =>
      cases p with
      | mk u r => simp [Option.elim, probe_loop_init_eq]

/-! ## Toggle-engine lemmas -/

theorem pypi_fallback_inv (env : ToggleEnv) (m : String) :
    (pypi_homepage_fallback env m).1.isSome = (pypi_homepage_fallback env m).2
    := by
  unfold pypi_homepage_fallback
  dsimp only
  split
  · split <;> (split <;> rfl)
  · rfl

theorem resolve_github_inv (env : ToggleEnv) (m : String) :
    (resolve_github env m).1.isSome = (resolve_github env m).2 := by
  unfold resolve_github
  cases env.ghUsername with
  | none => exact pypi_fallback_inv env m
  | some username =>
    dsimp only
    split
    · split
      · rfl
      · exact pypi_fallback_inv env m
    · exact pypi_fallback_inv env m

/-- Replacing the sources table changes nothing the URL/path/branch
resolution reads. -/
theorem resolve_github_withSources (env : ToggleEnv)
    (s : List (String × SourceEntry)) (m : String) :
    resolve_github (env.withSources s) m = resolve_github env m := rfl

theorem the_local_path_withSources (env : ToggleEnv)
    (s : List (String × SourceEntry)) (m : String) :
    the_local_path (env.withSources s) m = the_local_path env m := rfl

theorem toggle_current_branch_withSources (env : ToggleEnv)
    (s : List (String × SourceEntry)) (m : String) :
    toggle_current_branch (env.withSources s) m
      = toggle_current_branch env m := rfl

/-- Characterisation of every completed (non-exiting) non-PyPI invocation:
the persisted table is the old one with the decided entry written under the
package key, and the lock refresh targets that package. -/
theorem toggle_done_char (env : ToggleEnv) (m : String) (fl fp : Bool)
    (s1 : List (String × SourceEntry)) (st : StatusKind) (pkg : String)
    (h : toggle_module_source env m fl fp false = .done s1 st pkg) :
    pkg = m ∧ s1 = dict_insert env.sources m (decided_entry env m fl fp) := by
  unfold toggle_module_source at h
  dsimp only at h
  simp only [Bool.false_eq_true, if_false] at h
  split_ifs at h with h1 h2 h3 h4 h5 <;>
    first
      | exact ToggleResult.noConfusion h
      | (cases h; exact ⟨rfl, by simp [decided_entry, h3]⟩)

/-- C1: for invocations without `force_pypi`, every completed run writes the
Local `{path, editable = true}` entry exactly when `force_local` is set or
(no force flag is set and the existing entry has a `git` key), and the
Published entry in every other case (`decided_entry` spells out exactly that
decision); consequently two successive completed no-force toggles alternate
between entry kinds, while repeated forced toggles are idempotent. -/
theorem C1_toggle_decision (env : ToggleEnv) (m : String) :
    (∀ (fl fp : Bool) s1 st pkg,
        toggle_module_source env m fl fp false = .done s1 st pkg →
          dict_find s1 m = some (decided_entry env m fl fp))
    ∧ (∀ s1 st pkg s2 st2 pkg2,
        toggle_module_source env m false false false = .done s1 st pkg →
          toggle_module_source (env.withSources s1) m false false false
              = .done s2 st2 pkg2 →
            is_local_entry (dict_find s2 m)
              = !(is_local_entry (dict_find s1 m)))
    ∧ (∀ (fl fp : Bool), fl = true ∨ fp = true →
        ∀ s1 st pkg s2 st2 pkg2,
          toggle_module_source env m fl fp false = .done s1 st pkg →
            toggle_module_source (env.withSources s1) m fl fp false
                = .done s2 st2 pkg2 →
              dict_find s2 m = dict_find s1 m) := by
  refine ⟨?_, ?_, ?_⟩
  · intro fl fp s1 st pkg h
    obtain ⟨_, hs⟩ := toggle_done_char env m fl fp s1 st pkg h
    rw [hs, dict_find_insert]
  · intro s1 st pkg s2 st2 pkg2 h1 h2
    obtain ⟨_, hs1⟩ := toggle_done_char env m false false s1 st pkg h1
    obtain ⟨_, hs2⟩ :=
      toggle_done_char (env.withSources s1) m false false s2 st2 pkg2 h2
    have hfind : dict_find s1 m = some (decided_entry env m false false) := by
      rw [hs1]
      exact dict_find_insert _ _ _
    have hss : (env.withSources s1).sources = s1 := rfl
    rw [hs2, hss, dict_find_insert, hfind]
    cases hg : has_git_key (dict_find env.sources m) with
    | true =>
      have he1 : decided_entry env m false false
          = SourceEntry.localSrc (the_local_path env m) true := by
        simp [decided_entry, hg]
      rw [he1] at hfind
      have he2 : decided_entry (env.withSources s1) m false false
          = SourceEntry.gitSrc (resolve_github (env.withSources s1) m).1
              (toggle_current_branch (env.withSources s1) m) := by
        simp [decided_entry, hss, hfind, has_git_key]
      rw [he1, he2]
      simp [is_local_entry]
    | false =>
      have he1 : decided_entry env m false false
          = SourceEntry.gitSrc (resolve_github env m).1
              (toggle_current_branch env m) := by
        simp [decided_entry, hg]
      rw [he1] at hfind
      have he2 : decided_entry (env.withSources s1) m false false
          = SourceEntry.localSrc (the_local_path (env.withSources s1) m)
              true := by
        simp [decided_entry, hss, hfind, has_git_key]
      rw [he1, he2]
      simp [is_local_entry]
  · intro fl fp hor s1 st pkg s2 st2 pkg2 h1 h2
    obtain ⟨_, hs1⟩ := toggle_done_char env m fl fp s1 st pkg h1
    obtain ⟨_, hs2⟩ :=
      toggle_done_char (env.withSources s1) m fl fp s2 st2 pkg2 h2
    have hss : (env.withSources s1).sources = s1 := rfl
    rw [hs2, hss, dict_find_insert, hs1, dict_find_insert]
    rcases hor with hfl | hfp
    · subst hfl
      simp [decided_entry, the_local_path_withSources]
    · subst hfp
      cases hfl2 : fl with
      | true => simp [decided_entry, the_local_path_withSources]
      | false =>
        simp [decided_entry, resolve_github_withSources,
          toggle_current_branch_withSources]

/-- Witness for C1 at a concrete environment whose `demo` entry is Published
and whose local checkout exists: the completed no-force toggle writes the
Local entry. -/
theorem C1_witness :
    dict_find (dict_insert env_git_demo.sources "demo"
        (decided_entry env_git_demo "demo" false false)) "demo"
      = some (SourceEntry.localSrc "pypi/demo" true) := by
  have h := (C1_toggle_decision env_git_demo "demo").1 false false
    (dict_insert env_git_demo.sources "demo"
      (decided_entry env_git_demo "demo" false false))
    StatusKind.sourcePath "demo" rfl
  exact h

/-- C4: whenever the resolution step yields a repository URL, the validity
flag is set, so the pre-clone "resolved URL failed shape validation" error
exit of `toggle_module_source` is unreachable for every environment and flag
combination. -/
theorem C4_resolved_implies_valid (env : ToggleEnv) (m : String)
    (fl fp fpy : Bool) :
    (!(resolve_github env m).1.isSome || (resolve_github env m).2) = true
    ∧ is_unvalidated_exit (toggle_module_source env m fl fp fpy) = false := by
  have hinv := resolve_github_inv env m
  constructor
  · rw [← hinv]
    cases (resolve_github env m).1.isSome <;> rfl
  · unfold toggle_module_source
    dsimp only
    split_ifs <;>
      first
        | rfl
        | (exfalso
           have h7 : ¬((resolve_github env m).1.isNone = true) := by assumption
           have h8 : (!(resolve_github env m).2) = true := by assumption
           rcases hr : (resolve_github env m).1 with _ | u
           · exact h7 (by rw [hr]; rfl)
           · have hv : (resolve_github env m).2 = true := by
               rw [← hinv, hr]
               rfl
             rw [hv] at h8
             exact absurd h8 (by simp))

/-- C5: without `force_pypi`, when the resolution yields no repository URL
and the resolved local checkout path does not exist, the invocation exits
via `sys.exit(1)` printing an error that names the package, and no sources
table is persisted (the `exit1` result carries no written configuration). -/
theorem C5_no_url_no_local (env : ToggleEnv) (m : String) (fl fp : Bool)
    (hpy : env.pyprojectExists = true)
    (hurl : (resolve_github env m).1 = none)
    (hloc : env.pathExists (the_local_path env m) = false) :
    toggle_module_source env m fl fp false
        = .exit1 .noUrlNoLocal (error_message m
            ("Local path " ++ the_local_path env m
              ++ " does not exist and GitHub URL detection failed"))
    ∧ contains_str (error_message m
          ("Local path " ++ the_local_path env m
            ++ " does not exist and GitHub URL detection failed")) m
        = true := by
  constructor
  · unfold toggle_module_source
    dsimp only
    simp [hpy, hurl, hloc]
  · unfold error_message
    exact contains_str_append _ m

/-- Witness for C5 at a concrete environment with no resolvable URL and no
local checkout. -/
theorem C5_witness :
    toggle_module_source env_no_url "demo" false false false
        = .exit1 .noUrlNoLocal (error_message "demo"
            ("Local path " ++ the_local_path env_no_url "demo"
              ++ " does not exist and GitHub URL detection failed"))
    ∧ contains_str (error_message "demo"
          ("Local path " ++ the_local_path env_no_url "demo"
            ++ " does not exist and GitHub URL detection failed")) "demo"
        = true :=
  C5_no_url_no_local env_no_url "demo" false false rfl rfl rfl

/-- C7: with `force_pypi`, an existing entry is removed (and the removal
reported), a missing entry leaves the table unchanged with the distinct
"already using PyPI" report; in both cases the table is persisted, the lock
refresh targets the package, and no new entry is written — in particular the
package key is absent after a removal. -/
theorem C7_force_pypi (env : ToggleEnv) (m : String) (fl fp : Bool)
    (hpy : env.pyprojectExists = true) :
    toggle_module_source env m fl fp true
        = (if dict_mem env.sources m then
            .done (dict_erase env.sources m) .pypiRemoved m
          else .done env.sources .pypiAlready m)
    ∧ dict_find (dict_erase env.sources m) m = none := by
  constructor
  · unfold toggle_module_source
    dsimp only
    simp [hpy]
  · exact dict_find_erase _ _

/-- Witness for C7 at a concrete environment with an existing `demo` entry. -/
theorem C7_witness :
    toggle_module_source env_git_demo "demo" false false true
        = .done [] .pypiRemoved "demo"
    ∧ dict_find (dict_erase env_git_demo.sources "demo") "demo" = none := by
  have h := C7_force_pypi env_git_demo "demo" false false rfl
  refine ⟨?_, h.2⟩
  rw [h.1]
  rfl

/-- C8: the local checkout path tries exactly the three candidates — name
as-is, underscores→hyphens, hyphens→underscores — in order, returning the
first that exists and the as-is path when none does; the root directory
defaults to `"pypi"` and is overridden by `PYTHON_DEVELOPMENT_TOGGLE`. -/
theorem C8_local_path_choice (ex : String → Bool) (dir m s : String) :
    resolve_local_path ex dir m
        = ((local_candidates dir m).find? ex).getD (dir ++ "/" ++ m)
    ∧ toggle_dev_dir none = "pypi" ∧ toggle_dev_dir (some s) = s := by
  refine ⟨?_, rfl, rfl⟩
  unfold resolve_local_path local_candidates
  dsimp only
  cases h1 : ex (dir ++ "/" ++ m) <;>
    cases h2 : ex (dir ++ "/" ++ replace_char '_' '-' m) <;>
      cases h3 : ex (dir ++ "/" ++ replace_char '-' '_' m) <;>
        simp [List.find?_cons, h1, h2, h3]

/-- C9: whenever a completed toggle leaves a Published entry under the
package key, its `git` field is the resolved URL and its `rev` field is the
local checkout's branch exactly when the checkout exists and its branch is
neither `main` nor `master`; otherwise there is no revision pin. -/
theorem C9_published_rev (env : ToggleEnv) (m : String) (fl fp : Bool)
    (s1 : List (String × SourceEntry)) (st : StatusKind) (pkg : String)
    (g r : Option String)
    (h : toggle_module_source env m fl fp false = .done s1 st pkg)
    (hg : dict_find s1 m = some (.gitSrc g r)) :
    g = (resolve_github env m).1
    ∧ r = toggle_current_branch env m
    ∧ (env.pathExists (the_local_path env m) = true
        ∧ env.branchOf (the_local_path env m) ≠ "main"
        ∧ env.branchOf (the_local_path env m) ≠ "master"
      → r = some (env.branchOf (the_local_path env m)))
    ∧ (env.pathExists (the_local_path env m) = false
        ∨ env.branchOf (the_local_path env m) = "main"
        ∨ env.branchOf (the_local_path env m) = "master"
      → r = none) := by
  obtain ⟨_, hs⟩ := toggle_done_char env m fl fp s1 st pkg h
  rw [hs, dict_find_insert] at hg
  by_cases hd : (fl || (!fp && has_git_key (dict_find env.sources m))) = true
  · unfold decided_entry at hg
    rw [if_pos hd] at hg
    exact absurd hg (by simp)
  · unfold decided_entry at hg
    rw [if_neg hd] at hg
    injection hg with hg2
    injection hg2 with hga hgb
    refine ⟨hga.symm, hgb.symm, ?_, ?_⟩
    · rintro ⟨hex, hb1, hb2⟩
      rw [← hgb]
      unfold toggle_current_branch
      dsimp only
      simp [hex, hb1, hb2]
    · intro hdis
      rw [← hgb]
      unfold toggle_current_branch
      dsimp only
      rcases hdis with hex | hb | hb
      · simp [hex]
      · cases hex2 : env.pathExists (the_local_path env m) <;>
          simp [hex2, hb]
      · cases hex2 : env.pathExists (the_local_path env m) <;>
          simp [hex2, hb]

/-- Witness for C9 at a concrete environment whose checkout is on branch
`feature`: the Published entry carries that revision pin. -/
theorem C9_witness :
    (some "feature" : Option String)
      = some (env_feature.branchOf (the_local_path env_feature "demo")) := by
  have h := C9_published_rev env_feature "demo" false false
    (dict_insert env_feature.sources "demo"
      (SourceEntry.gitSrc none (some "feature")))
    StatusKind.sourceGit "demo" none (some "feature") rfl
    (dict_find_insert _ _ _)
  exact h.2.2.1 ⟨rfl, by decide, by decide⟩

end UvToggle
